import Mathlib

/-!
# Verification of the storage-cleanup scan/navigation core

Shallow embedding of the scan-orchestration and navigation engine of the
`storage-cleanup` repository (TypeScript + Ink), translated from:

* `src/src/ui/Navigator.tsx` — directory cache, scan coordinator
  (`triggerScan`, `measureDirs`), navigation state machine
  (`confirmDelete`, `adjustViewport`, selected-index clamping,
  `getNavigableList`);
* `src/src/persist.ts` — `loadCacheFromDisk`, `saveCacheToDisk`;
* `src/src/index.tsx` — startup routing between the interactive
  navigator and the non-interactive one-shot UI.

Modelling conventions:

* Filesystem paths are modelled as lists of components (`DirPath`);
  `path.dirname` becomes `List.dropLast`, the filesystem root is `[]`
  (Node's `path.dirname "/" = "/"` matches `[].dropLast = []`).
* JavaScript `Map` objects and the persisted JSON object are modelled as
  association lists with `aget` / `aset` / `adel` mirroring `get`,
  keyed assignment and `delete`.
* The Node event loop runs each synchronous block of a continuation
  atomically; every such block (a token check together with the state
  writes it guards, with no `await` in between) is one `ScanEvent`, and
  an arbitrary interleaving of continuations from any number of
  overlapping `triggerScan` invocations is a list of events folded over
  `scanStep`.
* Sizes are natural numbers of kibibytes (`du -skx` output, with
  failures absorbed as 0 by `runDuKb`).
-/

namespace StorageCleanup

/-- A path, as its list of components from the root; `[]` is the root. -/
abbrev DirPath := List String

/-- `path.dirname`, on component lists: drop the last component.
At the root it is the identity, matching Node's `dirname("/") = "/"`. -/
def dirname (p : DirPath) : DirPath := p.dropLast

/-- `SizeEntry` from `src/src/utils.ts`: `{ kb: number; path: string }`. -/
structure SizeEntry where
  kb : Nat
  path : DirPath
deriving DecidableEq, Repr

/-- `DirStatus` from `src/src/ui/Navigator.tsx` line 10. -/
inductive DirStatus
  | unscanned
  | scanning
  | scanned
deriving DecidableEq, Repr

/-- `DirCacheEntry` from `src/src/ui/Navigator.tsx` lines 12-20.
`alphaDirs` is the alphabetical immediate-subdirectory listing
(the spec's `childPaths`), `dirs` the sized top-N list (the spec's
`sizedChildren`), `lastScan` a timestamp, `msg` a status/error message. -/
structure DirCacheEntry where
  status : DirStatus
  path : DirPath
  alphaDirs : List DirPath
  dirs : Option (List SizeEntry) := none
  files : Option (List SizeEntry) := none
  lastScan : Option Nat := none
  msg : Option String := none
deriving DecidableEq, Repr

/-- `TOP_N` from `src/src/ui/Navigator.tsx` line 22. -/
def TOP_N : Nat := 30

/-- `CONCURRENCY` from `src/src/ui/Navigator.tsx` line 23. -/
def CONCURRENCY : Nat := 6

/-- Association-list lookup, modelling `Map.prototype.get` /
JSON-object indexing. -/
def aget {κ α : Type} [DecidableEq κ] : List (κ × α) → κ → Option α
  | [], _ => none
  | (k, v) :: rest, key => if key = k then some v else aget rest key

/-- Association-list update, modelling `Map.prototype.set` /
`data[key] = value`: replace the binding if present, else append. -/
def aset {κ α : Type} [DecidableEq κ] : List (κ × α) → κ → α → List (κ × α)
  | [], key, v => [(key, v)]
  | (k, w) :: rest, key, v =>
    if key = k then (key, v) :: rest else (k, w) :: aset rest key v

/-- Association-list deletion, modelling `Map.prototype.delete`. -/
def adel {κ α : Type} [DecidableEq κ] : List (κ × α) → κ → List (κ × α)
  | [], _ => []
  | (k, w) :: rest, key =>
    if key = k then adel rest key else (k, w) :: adel rest key

/-- The in-memory directory cache: `Map<string, DirCacheEntry>`. -/
abbrev DirCache := List (DirPath × DirCacheEntry)

/-- The final sort of `measureDirs` (`src/src/ui/Navigator.tsx` line 47):
`results.sort((a, b) => b.kb - a.kb)`, a stable sort ordering entries by
descending `kb`. -/
def sortDescByKb (results : List SizeEntry) : List SizeEntry :=
  results.mergeSort (fun a b => decide (b.kb ≤ a.kb))

/-- `measureDirs` (`src/src/ui/Navigator.tsx` lines 30-49) modulo the
worker pool: the pool's workers pull indices from a shared cursor and
push one `{kb, path}` result per directory into `results` in completion
order, so after the join `results` is some permutation (depending on the
interleaving) of the measured entries; the function then sorts it
descending by `kb` and returns it. `pushed` stands for the joined
`results` array; theorems quantify over all permutations. -/
def measureDirs (pushed : List SizeEntry) : List SizeEntry :=
  sortDescByKb pushed

/-- The multiset of measurements the pool produces for child list `dirs`
under measurement outcome `sizeOf` (`runDuKb`, which absorbs per-child
failures as size 0): each directory is measured exactly once. -/
def measuredEntries (sizeOf : DirPath → Nat) (dirs : List DirPath) : List SizeEntry :=
  dirs.map (fun d => ⟨sizeOf d, d⟩)

/-- `Progress` from `src/src/scanners.ts`:
`{ phase: string; processed: number; total: number }`. -/
structure Progress where
  phase : String
  processed : Nat
  total : Nat
deriving DecidableEq, Repr

/-- The shared state touched by `triggerScan` and its continuations
(`src/src/ui/Navigator.tsx`): the global sequence counter
`scanSeqRef.current` (line 179), the directory cache, the
`progressDirs` display state and the `currentSizeKb` display state. -/
structure ScanState where
  seq : Nat
  cache : DirCache
  progressDirs : Option Progress := none
  currentSizeKb : Option Nat := none
deriving DecidableEq, Repr

/-- One atomic synchronous block of `triggerScan`
(`src/src/ui/Navigator.tsx` lines 181-241).  Every block that runs after
an `await` carries the invocation's token `t` (= `mySeq`):

* `alloc p force` — the synchronous head of `triggerScan(p, force)`:
  `const mySeq = ++scanSeqRef.current` followed by the guarded
  `setCache` marking the entry `scanning` (lines 182-192);
* `startProgress` — the line-197 token check plus the line-198
  `setProgressDirs({processed: 0, total})`;
* `progress` — the progress callback (lines 200-207); `throttleOk`
  models `now - lastDirsTs > 150`;
* `commit` — the pool-completion continuation (lines 209-221): token
  check, then write the sorted results truncated to `TOP_N` into the
  cache, mark `scanned`, clear `msg`, stamp `lastScan`;
* `sizeRefresh` — the post-scan size refresh (line 225);
* `fail` — the `catch` handler (lines 226-235), which reverts the entry
  to `unscanned` and records the error message;
* `clearProgress` — the `finally` block (lines 236-240). -/
inductive ScanEvent
  | alloc (p : DirPath) (force : Bool)
  | startProgress (t : Nat) (total : Nat)
  | progress (t : Nat) (prog : Progress) (throttleOk : Bool)
  | commit (t : Nat) (p : DirPath) (dirSizes : List SizeEntry) (now : Nat)
  | sizeRefresh (t : Nat) (kb : Nat)
  | fail (t : Nat) (p : DirPath) (emsg : String)
  | clearProgress (t : Nat)
deriving DecidableEq, Repr

/-- Effect of one `ScanEvent` on the shared state, transcribed from
`src/src/ui/Navigator.tsx` lines 181-241.  Note that the `fail` case
(the `catch` handler, lines 226-235) performs no token check, unlike
every other continuation. -/
def scanStep (s : ScanState) (e : ScanEvent) : ScanState :=
  match e with
  | .alloc p force =>
    let mySeq := s.seq + 1
    let cache1 :=
      match aget s.cache p with
      | none => s.cache
      | some ent =>
        if ent.status = .scanning then s.cache
        else if force = false ∧ ent.status = .scanned then s.cache
        else aset s.cache p { ent with status := .scanning, msg := some "Scanning…" }
    { s with seq := mySeq, cache := cache1 }
  | .startProgress t total =>
    if s.seq ≠ t then s
    else { s with progressDirs := some ⟨"measuring", 0, total⟩ }
  | .progress t prog throttleOk =>
    if s.seq ≠ t then s
    else if throttleOk = true ∨ prog.processed = prog.total then
      { s with progressDirs := some prog }
    else s
  | .commit t p dirSizes now =>
    if s.seq ≠ t then s
    else
      let cache1 :=
        match aget s.cache p with
        | none => s.cache
        | some ent =>
          aset s.cache p
            { ent with status := .scanned, msg := none,
                       dirs := some (dirSizes.take TOP_N), files := some [],
                       lastScan := some now }
      { s with cache := cache1 }
  | .sizeRefresh t kb =>
    if s.seq ≠ t then s else { s with currentSizeKb := some kb }
  | .fail _t p emsg =>
    let cache1 :=
      match aget s.cache p with
      | none => s.cache
      | some ent =>
        aset s.cache p { ent with status := .unscanned, msg := some emsg }
    { s with cache := cache1 }
  | .clearProgress t =>
    if s.seq ≠ t then s else { s with progressDirs := none }

/-- Fold a sequence of continuation events over the shared state. -/
def runTrace (s : ScanState) (es : List ScanEvent) : ScanState :=
  es.foldl scanStep s

/-- The delete-confirmation prompt
(`src/src/ui/Navigator.tsx` line 115): `status: 'confirm' | 'working'`. -/
inductive PromptStatus
  | confirm
  | working
deriving DecidableEq, Repr

/-- `deletePrompt` contents (`src/src/ui/Navigator.tsx` line 115). -/
structure DeletePrompt where
  path : DirPath
  label : String
  status : PromptStatus
  error : Option String := none
deriving DecidableEq, Repr

/-- The navigation state touched by `confirmDelete`
(`src/src/ui/Navigator.tsx`): current path, cursor, viewport offset,
elapsed-timer origin, the cache, and the delete prompt. -/
structure NavState where
  currentPath : DirPath
  selectedIndex : Nat
  viewOffset : Nat
  elapsedStart : Nat
  cache : DirCache
  deletePrompt : Option DeletePrompt := none
deriving DecidableEq, Repr

/-- A `triggerScan(path, force)` call issued by the navigation layer. -/
structure ScanRequest where
  path : DirPath
  force : Bool
deriving DecidableEq, Repr

/-- The success branch of `confirmDelete`
(`src/src/ui/Navigator.tsx` lines 253-283), entered when
`fs.promises.rm(targetPath, {recursive, force})` resolves: clear the
prompt, delete the target from the cache, strip it from the parent's
`alphaDirs` and `dirs` if the parent is cached, move to the parent
(resetting cursor and viewport) when the target was the current path,
restart the elapsed timer, and issue the final forced `triggerScan`.
The ternary in line 279 reads the pre-update `currentPath` captured by
the closure.  Returns the new state and the issued scan request. -/
def confirmDeleteSuccess (s : NavState) (targetPath : DirPath) (now : Nat) :
    NavState × ScanRequest :=
  let s1 : NavState := { s with deletePrompt := none }
  let cacheDeleted := adel s1.cache targetPath
  let parent := dirname targetPath
  let cache2 :=
    match aget cacheDeleted parent with
    | none => cacheDeleted
    | some pe =>
      aset cacheDeleted parent
        { pe with
            alphaDirs := pe.alphaDirs.filter (fun d => decide (d ≠ targetPath)),
            dirs := pe.dirs.map (fun ds => ds.filter (fun d => decide (d.path ≠ targetPath))) }
  let s2 : NavState := { s1 with cache := cache2 }
  let cur0 := s.currentPath
  let s3 : NavState :=
    if cur0 = targetPath then
      if parent ≠ targetPath then
        { s2 with currentPath := parent, selectedIndex := 0, viewOffset := 0 }
      else s2
    else s2
  let s4 : NavState := { s3 with elapsedStart := now }
  (s4, ⟨if cur0 = targetPath then dirname targetPath else cur0, true⟩)

/-- An element of the navigable list: a sized result row or an
alphabetical child path (`Array<SizeEntry | string>`). -/
inductive NavItem
  | sized (e : SizeEntry)
  | alpha (p : DirPath)
deriving DecidableEq, Repr

/-- `getNavigableList` (`src/src/ui/Navigator.tsx` lines 99-105):
the sized list when present and non-empty, else the alphabetical list. -/
def getNavigableList : Option DirCacheEntry → List NavItem
  | none => []
  | some entry =>
    match entry.dirs with
    | some ds =>
      if ds.length > 0 then ds.map NavItem.sized
      else entry.alphaDirs.map NavItem.alpha
    | none => entry.alphaDirs.map NavItem.alpha

/-- The clamp effect (`src/src/ui/Navigator.tsx` lines 285-290), run
whenever `navigableLen` changes:
`navigableLen === 0 ? 0 : Math.max(0, Math.min(idx, navigableLen - 1))`. -/
def clampSelectedIndex (navigableLen idx : Nat) : Nat :=
  if navigableLen = 0 then 0 else max 0 (min idx (navigableLen - 1))

/-- `adjustViewport` (`src/src/ui/Navigator.tsx` lines 246-251). -/
def adjustViewport (len selected currentOffset viewSize : Nat) : Nat :=
  if len ≤ viewSize then 0
  else if selected < currentOffset then selected
  else if currentOffset + viewSize ≤ selected then selected - viewSize + 1
  else currentOffset

/-- Modelled from the spec: the §4.3 scroll rule — "if `selected <
offset`, `offset := selected`; if `selected >= offset + windowSize`,
`offset := selected - windowSize + 1`; otherwise unchanged". Stated
separately from `adjustViewport` to compare the code against the spec. -/
def specScrollRule (selected offset windowSize : Nat) : Nat :=
  if selected < offset then selected
  else if offset + windowSize ≤ selected then selected - windowSize + 1
  else offset

/-- A persisted record (`src/src/persist.ts` lines 5-9):
`{ lastScan: number; dirs: SizeEntry[]; files: SizeEntry[] }`. -/
structure PersistEntry where
  lastScan : Nat
  dirs : List SizeEntry
  files : List SizeEntry
deriving DecidableEq, Repr

/-- The persisted store (`PersistMap`), a JSON object keyed by path. -/
abbrev PersistMap := List (DirPath × PersistEntry)

/-- `loadCacheFromDisk` (`src/src/persist.ts` lines 24-44): each
persisted record becomes a `scanned` cache entry with its `dirs`,
`files` and `lastScan` restored and `alphaDirs` left empty. -/
def loadCacheFromDisk (data : PersistMap) : DirCache :=
  data.map (fun kv =>
    (kv.1,
      { status := .scanned, path := kv.1, alphaDirs := [],
        dirs := some kv.2.dirs, files := some kv.2.files,
        lastScan := some kv.2.lastScan, msg := none }))

/-- `saveCacheToDisk` (`src/src/persist.ts` lines 46-54): read the
stored mapping, update the single key `dirPath`, write it back. -/
def saveCacheToDisk (data : PersistMap) (dirPath : DirPath) (entry : PersistEntry) :
    PersistMap :=
  aset data dirPath entry

/-- Outcome of process startup.  `renderApp` and `renderNavigator` are
the two `render` calls of `src/src/index.tsx`; `exitWithError` is
modelled from the spec ("absence of an interactive terminal is a
startup error, non-zero exit", §6) and is produced by no code path —
it exists to state the claim the routing is compared against. -/
inductive StartupAction
  | renderApp
  | renderNavigator
  | exitWithError
deriving DecidableEq, Repr

/-- The `legacy` test of `src/src/index.tsx` line 9: the first argument
selects a one-shot subcommand. -/
def isLegacyInvocation (first : Option String) : Bool :=
  first == some "dirs" || first == some "files" || first == some "nodes" ||
    first == some "preset" || first == some "--"

/-- The entry point routing of `src/src/index.tsx` lines 7-12:
`render(legacy || nonTty ? <App /> : <Navigator />)`, where
`nonTty = !process.stdin.isTTY`. -/
def routeStartup (first : Option String) (stdinIsTTY : Bool) : StartupAction :=
  if isLegacyInvocation first || !stdinIsTTY then .renderApp else .renderNavigator

/-! ## Association-list lemmas -/

theorem aget_aset_self {κ α : Type} [DecidableEq κ] (l : List (κ × α)) (k : κ) (v : α) :
    aget (aset l k v) k = some v := by
  induction l with
  | nil => simp [aget, aset]
  | cons hd tl ih =>
    by_cases h : k = hd.1
    · simp [aget, aset, h]
    · simp [aget, aset, h, ih]

theorem aget_aset_ne {κ α : Type} [DecidableEq κ] (l : List (κ × α)) (k k' : κ) (v : α)
    (h : k' ≠ k) : aget (aset l k v) k' = aget l k' := by
  induction l with
  | nil => simp [aget, aset, h]
  | cons hd tl ih =>
    by_cases hk : k = hd.1
    · subst hk
      simp [aget, aset, h]
    · by_cases hk' : k' = hd.1
      · simp [aget, aset, hk, hk']
      · simp [aget, aset, hk, hk', ih]

theorem aget_adel_self {κ α : Type} [DecidableEq κ] (l : List (κ × α)) (k : κ) :
    aget (adel l k) k = none := by
  induction l with
  | nil => simp [aget, adel]
  | cons hd tl ih =>
    by_cases h : k = hd.1
    · subst h
      simp [adel, ih]
    · simp [aget, adel, h, ih]

theorem aget_adel_ne {κ α : Type} [DecidableEq κ] (l : List (κ × α)) (k k' : κ)
    (h : k' ≠ k) : aget (adel l k) k' = aget l k' := by
  induction l with
  | nil => simp [adel]
  | cons hd tl ih =>
    by_cases hk : k = hd.1
    · subst hk
      simp [aget, adel, h, ih]
    · by_cases hk' : k' = hd.1
      · simp [aget, adel, hk, hk']
      · simp [aget, adel, hk, hk', ih]

theorem aget_map {κ α β : Type} [DecidableEq κ] (f : κ → α → β) (l : List (κ × α)) (k : κ) :
    aget (l.map (fun kv => (kv.1, f kv.1 kv.2))) k = (aget l k).map (f k) := by
  induction l with
  | nil => simp [aget]
  | cons hd tl ih =>
    by_cases h : k = hd.1
    · simp [aget, h]
    · simp [aget, h, ih]

/-! ## Sequence-counter lemmas -/

theorem scanStep_alloc_seq (s : ScanState) (p : DirPath) (force : Bool) :
    (scanStep s (.alloc p force)).seq = s.seq + 1 := by
  simp only [scanStep]

theorem scanStep_seq_le (s : ScanState) (e : ScanEvent) : s.seq ≤ (scanStep s e).seq := by
  cases e <;> simp only [scanStep] <;> (repeat' split) <;> simp_arith

theorem runTrace_seq_le (s : ScanState) (es : List ScanEvent) :
    s.seq ≤ (runTrace s es).seq := by
  induction es generalizing s with
  | nil => exact Nat.le_refl _
  | cons e tl ih =>
    exact Nat.le_trans (scanStep_seq_le s e) (ih (scanStep s e))

/-! ## Stale-continuation no-op lemmas: every token-guarded continuation
leaves the state untouched when its token is not the current one. -/

theorem scanStep_startProgress_stale (s : ScanState) (t total : Nat) (h : t ≠ s.seq) :
    scanStep s (.startProgress t total) = s := by
  simp only [scanStep, if_pos (Ne.symm h)]

theorem scanStep_progress_stale (s : ScanState) (t : Nat) (prog : Progress) (b : Bool)
    (h : t ≠ s.seq) : scanStep s (.progress t prog b) = s := by
  simp only [scanStep, if_pos (Ne.symm h)]

theorem scanStep_commit_stale (s : ScanState) (t : Nat) (p : DirPath)
    (sizes : List SizeEntry) (now : Nat) (h : t ≠ s.seq) :
    scanStep s (.commit t p sizes now) = s := by
  simp only [scanStep, if_pos (Ne.symm h)]

theorem scanStep_sizeRefresh_stale (s : ScanState) (t kb : Nat) (h : t ≠ s.seq) :
    scanStep s (.sizeRefresh t kb) = s := by
  simp only [scanStep, if_pos (Ne.symm h)]

theorem scanStep_clearProgress_stale (s : ScanState) (t : Nat) (h : t ≠ s.seq) :
    scanStep s (.clearProgress t) = s := by
  simp only [scanStep, if_pos (Ne.symm h)]

/-- A pool-completion continuation whose token is still the latest, run
on a cached path, commits its results: the entry becomes `scanned` with
the truncated result list and timestamp, and its message is cleared. -/
theorem scanStep_commit_fresh (s : ScanState) (t : Nat) (p : DirPath)
    (sizes : List SizeEntry) (now : Nat) (ent : DirCacheEntry)
    (hseq : s.seq = t) (hent : aget s.cache p = some ent) :
    aget (scanStep s (.commit t p sizes now)).cache p
      = some { ent with status := .scanned, msg := none,
                        dirs := some (sizes.take TOP_N), files := some [],
                        lastScan := some now } := by
  subst hseq
  simp only [scanStep]
  rw [if_neg (by omega)]
  simp [hent, aget_aset_self]

/-! ## Concrete fixtures used by witnesses and counterexamples -/

/-- An entry for path `["p"]` that is mid-scan (as `triggerScan` marks it). -/
def c1entry : DirCacheEntry :=
  { status := .scanning, path := ["p"], alphaDirs := [], msg := some "Scanning…" }

/-- State with token 1 in flight on `["p"]`. -/
def c1state : ScanState := { seq := 1, cache := [(["p"], c1entry)] }

/-- A `scanned` entry for path `["tmp"]`. -/
def staleFailEntry : DirCacheEntry := { status := .scanned, path := ["tmp"], alphaDirs := [] }

/-- State whose latest token is 2, with `["tmp"]` cached as `scanned`. -/
def staleFailState : ScanState := { seq := 2, cache := [(["tmp"], staleFailEntry)] }

/-- State whose latest token is 2 with an empty cache. -/
def staleDemoState : ScanState := { seq := 2, cache := [] }

/-! ## C1: supersession on a single path -/

/-- Claim C1: if a scan with token `t1` on path `p` is superseded by a
forced rescan of `p` whose token is allocated later (the `alloc` event,
yielding token `s0.seq + 1 > t1`), then whatever continuation events
`es` follow in whatever order, `t1`'s pool-completion continuation is a
strict no-op on the whole state — it never writes its `sizedChildren`
into the cache — while the later token's commit, run while that token
is still the latest, does write its results for `p`. -/
theorem superseded_scan_never_commits
    (s0 : ScanState) (p : DirPath) (force2 : Bool) (t1 : Nat)
    (es : List ScanEvent) (sizes1 sizes2 : List SizeEntry) (n1 n2 : Nat)
    (ent : DirCacheEntry)
    (halloc : t1 ≤ s0.seq) :
    scanStep (runTrace (scanStep s0 (.alloc p force2)) es) (.commit t1 p sizes1 n1)
        = runTrace (scanStep s0 (.alloc p force2)) es
      ∧ ((runTrace (scanStep s0 (.alloc p force2)) es).seq = s0.seq + 1 →
         aget (runTrace (scanStep s0 (.alloc p force2)) es).cache p = some ent →
         aget (scanStep (runTrace (scanStep s0 (.alloc p force2)) es)
                 (.commit (s0.seq + 1) p sizes2 n2)).cache p
           = some { ent with status := .scanned, msg := none,
                              dirs := some (sizes2.take TOP_N), files := some [],
                              lastScan := some n2 }) := by
  have h1 := scanStep_alloc_seq s0 p force2
  have h2 := runTrace_seq_le (scanStep s0 (.alloc p force2)) es
  refine ⟨scanStep_commit_stale (runTrace (scanStep s0 (.alloc p force2)) es)
    t1 p sizes1 n1 (by omega), ?_⟩
  intro hcur hent
  exact scanStep_commit_fresh (runTrace (scanStep s0 (.alloc p force2)) es)
    (s0.seq + 1) p sizes2 n2 ent hcur hent

/-- Witness for C1 at a concrete input: token 1 is in flight on `["p"]`
when a forced rescan allocates token 2; token 1's commit is discarded
and token 2's commit writes its results. -/
theorem superseded_scan_never_commits_witness :
    ((1 : Nat) ≤ c1state.seq)
      ∧ scanStep (runTrace (scanStep c1state (.alloc ["p"] true)) [])
            (.commit 1 ["p"] [⟨5, ["p", "x"]⟩] 10)
          = runTrace (scanStep c1state (.alloc ["p"] true)) []
      ∧ aget (scanStep (runTrace (scanStep c1state (.alloc ["p"] true)) [])
                (.commit (c1state.seq + 1) ["p"] [⟨6, ["p", "y"]⟩] 11)).cache ["p"]
          = some { c1entry with status := .scanned, msg := none,
                                dirs := some ([(⟨6, ["p", "y"]⟩ : SizeEntry)].take TOP_N),
                                files := some [], lastScan := some 11 } :=
  ⟨by decide,
   (superseded_scan_never_commits c1state ["p"] true 1 [] [⟨5, ["p", "x"]⟩]
      [⟨6, ["p", "y"]⟩] 10 11 c1entry (by decide)).1,
   (superseded_scan_never_commits c1state ["p"] true 1 [] [⟨5, ["p", "x"]⟩]
      [⟨6, ["p", "y"]⟩] 10 11 c1entry (by decide)).2 (by decide) (by decide)⟩

/-! ## C2: token checks in continuations -/

/-- Claim C2 counterexample: the scan failure handler (the `catch` block,
`src/src/ui/Navigator.tsx` lines 226-235) carries no token check: in a
state whose latest token is 2, the failure continuation of the stale
token 1 still mutates shared state, reverting the cached entry to
`unscanned` and setting its error message.  This refutes the claim that
every asynchronous continuation of a scan re-validates its token before
mutating shared state. -/
theorem stale_failure_handler_mutates_cache :
    (1 : Nat) ≠ staleFailState.seq
      ∧ scanStep staleFailState (.fail 1 ["tmp"] "boom") ≠ staleFailState := by
  decide

/-- Claim C2 (amended): every token-guarded asynchronous continuation of
a scan — the initial progress write, the progress callback, the
pool-completion commit, the post-scan size refresh and the final
progress clear — first checks its token against the coordinator's
latest and, when stale, mutates nothing (it is a strict no-op on the
shared state); the failure handler, by contrast, performs no such check
(see the counterexample). -/
theorem token_guarded_continuations_discard_stale
    (s : ScanState) (t : Nat) (total kb now : Nat)
    (prog : Progress) (b : Bool) (p : DirPath) (sizes : List SizeEntry)
    (h : t ≠ s.seq) :
    scanStep s (.startProgress t total) = s
      ∧ scanStep s (.progress t prog b) = s
      ∧ scanStep s (.commit t p sizes now) = s
      ∧ scanStep s (.sizeRefresh t kb) = s
      ∧ scanStep s (.clearProgress t) = s :=
  ⟨scanStep_startProgress_stale s t total h, scanStep_progress_stale s t prog b h,
   scanStep_commit_stale s t p sizes now h, scanStep_sizeRefresh_stale s t kb h,
   scanStep_clearProgress_stale s t h⟩

/-- Witness for the amended C2 at a concrete input: token 1 is stale in
a state whose latest token is 2, and each guarded continuation leaves
the state unchanged. -/
theorem token_guarded_continuations_discard_stale_witness :
    ((1 : Nat) ≠ staleDemoState.seq)
      ∧ scanStep staleDemoState (.startProgress 1 5) = staleDemoState
      ∧ scanStep staleDemoState (.progress 1 ⟨"measuring", 1, 2⟩ true) = staleDemoState
      ∧ scanStep staleDemoState (.commit 1 ["x"] [] 7) = staleDemoState
      ∧ scanStep staleDemoState (.sizeRefresh 1 9) = staleDemoState
      ∧ scanStep staleDemoState (.clearProgress 1) = staleDemoState :=
  ⟨by decide,
   token_guarded_continuations_discard_stale staleDemoState 1 5 9 7
     ⟨"measuring", 1, 2⟩ true ["x"] [] (by decide)⟩

/-! ## C10: the counter is global across paths -/

/-- Claim C10: the sequence counter is a single process-global counter
(`scanSeqRef`), and every `triggerScan` call increments it before any
status or force check — even the calls whose cache guard no-ops — so
once `triggerScan` runs again for any path `q`, every earlier token
`t1`, on that path or any other path `p`, is superseded: its commit,
progress and size-refresh continuations leave the cache and the
progress state (indeed the entire shared state) unchanged. -/
theorem global_counter_supersedes_all_scans
    (sAny s0 : ScanState) (rAny q p : DirPath) (fAny force : Bool) (t1 : Nat)
    (es : List ScanEvent) (sizes : List SizeEntry) (nowp total kb : Nat)
    (prog : Progress) (b : Bool)
    (halloc : t1 ≤ s0.seq) :
    ((scanStep sAny (.alloc rAny fAny)).seq = sAny.seq + 1)
      ∧ scanStep (runTrace (scanStep s0 (.alloc q force)) es) (.commit t1 p sizes nowp)
          = runTrace (scanStep s0 (.alloc q force)) es
      ∧ scanStep (runTrace (scanStep s0 (.alloc q force)) es) (.startProgress t1 total)
          = runTrace (scanStep s0 (.alloc q force)) es
      ∧ scanStep (runTrace (scanStep s0 (.alloc q force)) es) (.progress t1 prog b)
          = runTrace (scanStep s0 (.alloc q force)) es
      ∧ scanStep (runTrace (scanStep s0 (.alloc q force)) es) (.sizeRefresh t1 kb)
          = runTrace (scanStep s0 (.alloc q force)) es
      ∧ scanStep (runTrace (scanStep s0 (.alloc q force)) es) (.clearProgress t1)
          = runTrace (scanStep s0 (.alloc q force)) es := by
  have h1 := scanStep_alloc_seq s0 q force
  have h2 := runTrace_seq_le (scanStep s0 (.alloc q force)) es
  exact ⟨scanStep_alloc_seq sAny rAny fAny,
    scanStep_commit_stale _ _ _ _ _ (by omega),
    scanStep_startProgress_stale _ _ _ (by omega),
    scanStep_progress_stale _ _ _ _ (by omega),
    scanStep_sizeRefresh_stale _ _ _ (by omega),
    scanStep_clearProgress_stale _ _ (by omega)⟩

/-- Witness for C10 at a concrete input: a `triggerScan` on `["q"]`
whose cache guard no-ops (the path is not even cached) still increments
the counter, and supersedes the in-flight token 1 on `["p"]`. -/
theorem global_counter_supersedes_all_scans_witness :
    ((1 : Nat) ≤ c1state.seq)
      ∧ ((scanStep c1state (.alloc ["q"] false)).seq = c1state.seq + 1)
      ∧ scanStep (runTrace (scanStep c1state (.alloc ["q"] false)) [])
            (.commit 1 ["p"] [⟨5, ["p", "x"]⟩] 10)
          = runTrace (scanStep c1state (.alloc ["q"] false)) []
      ∧ scanStep (runTrace (scanStep c1state (.alloc ["q"] false)) [])
            (.startProgress 1 4)
          = runTrace (scanStep c1state (.alloc ["q"] false)) []
      ∧ scanStep (runTrace (scanStep c1state (.alloc ["q"] false)) [])
            (.progress 1 ⟨"measuring", 2, 4⟩ false)
          = runTrace (scanStep c1state (.alloc ["q"] false)) []
      ∧ scanStep (runTrace (scanStep c1state (.alloc ["q"] false)) [])
            (.sizeRefresh 1 77)
          = runTrace (scanStep c1state (.alloc ["q"] false)) []
      ∧ scanStep (runTrace (scanStep c1state (.alloc ["q"] false)) [])
            (.clearProgress 1)
          = runTrace (scanStep c1state (.alloc ["q"] false)) [] :=
  ⟨by decide,
   global_counter_supersedes_all_scans c1state c1state ["q"] ["q"] ["p"] false false 1
     [] [⟨5, ["p", "x"]⟩] 10 4 77 ⟨"measuring", 2, 4⟩ false (by decide)⟩

/-! ## C3: committed results are sorted descending and truncated -/

/-- The comparator of `measureDirs` is transitive. -/
theorem kbDescTrans (a b c : SizeEntry)
    (h1 : decide (b.kb ≤ a.kb) = true) (h2 : decide (c.kb ≤ b.kb) = true) :
    decide (c.kb ≤ a.kb) = true := by
  simp at h1 h2 ⊢
  omega

/-- The comparator of `measureDirs` is total. -/
theorem kbDescTotal (a b : SizeEntry) :
    (decide (b.kb ≤ a.kb) || decide (a.kb ≤ b.kb)) = true := by
  simp
  omega

/-- `measureDirs` returns a list sorted descending by `kb`. -/
theorem measureDirs_sorted (pushed : List SizeEntry) :
    List.Sorted (fun a b : SizeEntry => b.kb ≤ a.kb) (measureDirs pushed) := by
  have h := List.sorted_mergeSort kbDescTrans kbDescTotal pushed
  exact h.imp (fun hab => of_decide_eq_true hab)

/-- Claim C3: for every completed scan — any child list `alpha`, any
measurement outcome `sizeOf`, and any order `pushed` in which the
concurrent worker pool pushed the measured entries — the committed
`sizedChildren` list is sorted descending by size, has length at most
`TOP_N` (30), and is exactly what the commit continuation writes into
the cache for the scanned path. -/
theorem committed_results_sorted_and_truncated
    (alpha : List DirPath) (sizeOf : DirPath → Nat) (pushed : List SizeEntry)
    (s : ScanState) (t now : Nat) (p : DirPath) (ent : DirCacheEntry)
    (hperm : pushed.Perm (measuredEntries sizeOf alpha))
    (hseq : s.seq = t)
    (hent : aget s.cache p = some ent) :
    List.Sorted (fun a b : SizeEntry => b.kb ≤ a.kb) ((measureDirs pushed).take TOP_N)
      ∧ ((measureDirs pushed).take TOP_N).length ≤ TOP_N
      ∧ aget (scanStep s (.commit t p (measureDirs pushed) now)).cache p
          = some { ent with status := .scanned, msg := none,
                            dirs := some ((measureDirs pushed).take TOP_N),
                            files := some [], lastScan := some now } := by
  refine ⟨List.Pairwise.sublist (List.take_sublist _ _) (measureDirs_sorted pushed),
    ?_, scanStep_commit_fresh s t p (measureDirs pushed) now ent hseq hent⟩
  rw [List.length_take]
  exact Nat.min_le_left _ _

/-- Witness for C3 at a concrete input: two children measured as 5 KB
and 7 KB, pushed by the pool in the interleaving that reverses the
child-list order; the committed list is `[7, 5]`, sorted and short. -/
theorem committed_results_sorted_and_truncated_witness :
    List.Perm [(⟨7, ["b"]⟩ : SizeEntry), ⟨5, ["a"]⟩]
        (measuredEntries (fun d => if d = ["a"] then 5 else 7) [["a"], ["b"]])
      ∧ List.Sorted (fun a b : SizeEntry => b.kb ≤ a.kb)
          ((measureDirs [⟨7, ["b"]⟩, ⟨5, ["a"]⟩]).take TOP_N)
      ∧ ((measureDirs [⟨7, ["b"]⟩, ⟨5, ["a"]⟩]).take TOP_N).length ≤ TOP_N
      ∧ aget (scanStep { seq := 3, cache := [(["p"], c1entry)] }
                (.commit 3 ["p"] (measureDirs [⟨7, ["b"]⟩, ⟨5, ["a"]⟩]) 44)).cache ["p"]
          = some { c1entry with status := .scanned, msg := none,
                                dirs := some ((measureDirs [⟨7, ["b"]⟩, ⟨5, ["a"]⟩]).take TOP_N),
                                files := some [], lastScan := some 44 } := by
  have hperm : List.Perm [(⟨7, ["b"]⟩ : SizeEntry), ⟨5, ["a"]⟩]
      (measuredEntries (fun d => if d = ["a"] then 5 else 7) [["a"], ["b"]]) := by
    decide
  have h := committed_results_sorted_and_truncated [["a"], ["b"]]
    (fun d => if d = ["a"] then 5 else 7) [⟨7, ["b"]⟩, ⟨5, ["a"]⟩]
    { seq := 3, cache := [(["p"], c1entry)] } 3 44 ["p"] c1entry
    hperm rfl (by decide)
  exact ⟨hperm, h.1, h.2.1, h.2.2⟩

/-! ## C4: the "no-op" guards of triggerScan do not stop the scan -/

/-- A `scanned` entry for `["home"]` holding an old result of 100 KB. -/
def c4entry : DirCacheEntry :=
  { status := .scanned, path := ["home"], alphaDirs := [["home", "big"]],
    dirs := some [⟨100, ["home", "big"]⟩], lastScan := some 1 }

/-- Fresh state (counter 0) with `["home"]` cached as `scanned`. -/
def c4state : ScanState := { seq := 0, cache := [(["home"], c4entry)] }

/-- Claim C4 is contradicted by the code: `triggerScan(p, force=false)`
on an entry whose status is already `scanned` is not a no-op.  The
status guard lives inside the `setCache` updater (its `return prev`
only skips the cache write, `src/src/ui/Navigator.tsx` lines 183-192),
so the surrounding async function still allocates a fresh token, runs
the measurement, and its commit continuation — carrying the latest
token — writes new results into the cache.  Evaluated at the failing
input: the unforced `alloc` on the `scanned` entry leaves the cache
unchanged but increments the counter, and the same invocation's commit
then replaces the entry's results and timestamp. -/
theorem unforced_scan_on_scanned_entry_still_commits :
    c4entry.status = .scanned
      ∧ (scanStep c4state (.alloc ["home"] false)).cache = c4state.cache
      ∧ (scanStep c4state (.alloc ["home"] false)).seq = 1
      ∧ aget (runTrace c4state
            [.alloc ["home"] false,
             .commit 1 ["home"] [⟨42, ["home", "big"]⟩] 99]).cache ["home"]
          = some { c4entry with status := .scanned, msg := none,
                                dirs := some [⟨42, ["home", "big"]⟩],
                                files := some [], lastScan := some 99 } := by
  decide

/-! ## C5: effects of a successful confirmed deletion -/

/-- A non-root path is changed by `dirname`. -/
theorem dirname_ne_of_ne_nil (p : DirPath) (h : p ≠ []) : dirname p ≠ p := by
  intro he
  have hlen := congrArg List.length he
  rw [dirname, List.length_dropLast] at hlen
  have h0 : p.length ≠ 0 := fun hh => h (List.length_eq_zero.mp hh)
  omega

/-- The cache produced by the deletion success branch: the target is
deleted, and a cached parent is rewritten with the target filtered out
of both lists.  (The cache does not depend on the current-path ifs.) -/
theorem confirmDeleteSuccess_cache (s : NavState) (target : DirPath) (now : Nat) :
    (confirmDeleteSuccess s target now).1.cache =
      (match aget (adel s.cache target) (dirname target) with
       | none => adel s.cache target
       | some pe =>
         aset (adel s.cache target) (dirname target)
           { pe with
               alphaDirs := pe.alphaDirs.filter (fun d => decide (d ≠ target)),
               dirs := pe.dirs.map
                 (fun ds => ds.filter (fun d => decide (d.path ≠ target))) }) := by
  by_cases hc0 : s.currentPath = target <;>
    by_cases hd : dirname target = target <;>
      simp [confirmDeleteSuccess, hc0, hd]

/-- The deletion success branch always clears the prompt. -/
theorem confirmDeleteSuccess_prompt (s : NavState) (target : DirPath) (now : Nat) :
    (confirmDeleteSuccess s target now).1.deletePrompt = none := by
  by_cases hc0 : s.currentPath = target <;>
    by_cases hd : dirname target = target <;>
      simp [confirmDeleteSuccess, hc0, hd]

/-- Current-path handling of the deletion success branch when the
deleted target was the current path (non-root). -/
theorem confirmDeleteSuccess_nav_eq (s : NavState) (target : DirPath) (now : Nat)
    (hc0 : s.currentPath = target) (hd : dirname target ≠ target) :
    (confirmDeleteSuccess s target now).1.currentPath = dirname target
      ∧ (confirmDeleteSuccess s target now).1.selectedIndex = 0
      ∧ (confirmDeleteSuccess s target now).1.viewOffset = 0
      ∧ (confirmDeleteSuccess s target now).2 = ⟨dirname target, true⟩ := by
  simp [confirmDeleteSuccess, hc0, hd]

/-- Current-path handling of the deletion success branch when the
deleted target was not the current path. -/
theorem confirmDeleteSuccess_nav_ne (s : NavState) (target : DirPath) (now : Nat)
    (hc0 : s.currentPath ≠ target) :
    (confirmDeleteSuccess s target now).1.currentPath = s.currentPath
      ∧ (confirmDeleteSuccess s target now).2 = ⟨s.currentPath, true⟩ := by
  by_cases hd : dirname target = target <;>
    simp [confirmDeleteSuccess, hc0, hd]

/-- Claim C5: on a confirmed deletion that succeeds for a non-root
target `targetPath`, the cache loses its entry for the target; any
entry still cached at the target's parent carries neither the target in
its `alphaDirs` (the spec's `childPaths`) nor any sized row for it; if
the target was the current path, the current path moves to the parent
with cursor and viewport reset to 0 and a forced scan of the parent is
issued, otherwise a forced rescan of the unchanged current path is
issued; and the prompt is cleared, returning the state machine to
Browsing. -/
theorem confirmDelete_success_effects
    (s : NavState) (targetPath : DirPath) (now : Nat)
    (hroot : targetPath ≠ []) :
    aget (confirmDeleteSuccess s targetPath now).1.cache targetPath = none
      ∧ (∀ pe, aget (confirmDeleteSuccess s targetPath now).1.cache (dirname targetPath)
            = some pe →
          (∀ d ∈ pe.alphaDirs, d ≠ targetPath)
            ∧ ∀ ds, pe.dirs = some ds → ∀ e ∈ ds, e.path ≠ targetPath)
      ∧ (s.currentPath = targetPath →
          (confirmDeleteSuccess s targetPath now).1.currentPath = dirname targetPath
            ∧ (confirmDeleteSuccess s targetPath now).1.selectedIndex = 0
            ∧ (confirmDeleteSuccess s targetPath now).1.viewOffset = 0
            ∧ (confirmDeleteSuccess s targetPath now).2 = ⟨dirname targetPath, true⟩)
      ∧ (s.currentPath ≠ targetPath →
          (confirmDeleteSuccess s targetPath now).1.currentPath = s.currentPath
            ∧ (confirmDeleteSuccess s targetPath now).2 = ⟨s.currentPath, true⟩)
      ∧ (confirmDeleteSuccess s targetPath now).1.deletePrompt = none := by
  have hpt : dirname targetPath ≠ targetPath := dirname_ne_of_ne_nil targetPath hroot
  have htp : targetPath ≠ dirname targetPath := hpt.symm
  have hcache := confirmDeleteSuccess_cache s targetPath now
  refine ⟨?_, ?_,
    fun hc => confirmDeleteSuccess_nav_eq s targetPath now hc hpt,
    fun hc => confirmDeleteSuccess_nav_ne s targetPath now hc,
    confirmDeleteSuccess_prompt s targetPath now⟩
  · rw [hcache]
    rcases hm : aget (adel s.cache targetPath) (dirname targetPath) with _ | pe
    · simp [aget_adel_self]
    · simp [aget_aset_ne _ _ _ _ htp, aget_adel_self]
  · intro pe0 hpe
    rw [hcache] at hpe
    rcases hm : aget (adel s.cache targetPath) (dirname targetPath) with _ | pe
    · rw [hm] at hpe
      rw [hm] at hpe
      exact absurd hpe (by simp)
    · rw [hm] at hpe
      rw [aget_aset_self] at hpe
      cases hpe
      constructor
      · intro d hd
        simp only [List.mem_filter, decide_eq_true_eq] at hd
        exact hd.2
      · intro ds hds
        simp only [Option.map_eq_some'] at hds
        rcases hds with ⟨ds0, _, rfl⟩
        intro e he
        simp only [List.mem_filter, decide_eq_true_eq] at he
        exact he.2

/-- Witness for C5 at a concrete input: deleting `["h", "x"]` while the
current path is its parent `["h"]` (both cached).  The entry for the
target disappears, the parent entry loses the target from both lists,
the current path is untouched and a forced rescan of it is issued. -/
theorem confirmDelete_success_effects_witness :
    (["h", "x"] : DirPath) ≠ []
      ∧ (["h"] : DirPath) ≠ ["h", "x"]
      ∧ aget (confirmDeleteSuccess
            { currentPath := ["h"], selectedIndex := 1, viewOffset := 0, elapsedStart := 0,
              cache := [(["h"],
                          { status := .scanned, path := ["h"],
                            alphaDirs := [["h", "x"], ["h", "y"]],
                            dirs := some [⟨9, ["h", "x"]⟩, ⟨3, ["h", "y"]⟩] }),
                         (["h", "x"],
                          { status := .scanned, path := ["h", "x"], alphaDirs := [] })],
              deletePrompt := some ⟨["h", "x"], "x", .working, none⟩ }
            ["h", "x"] 7).1.cache ["h", "x"] = none
      ∧ (confirmDeleteSuccess
            { currentPath := ["h"], selectedIndex := 1, viewOffset := 0, elapsedStart := 0,
              cache := [(["h"],
                          { status := .scanned, path := ["h"],
                            alphaDirs := [["h", "x"], ["h", "y"]],
                            dirs := some [⟨9, ["h", "x"]⟩, ⟨3, ["h", "y"]⟩] }),
                         (["h", "x"],
                          { status := .scanned, path := ["h", "x"], alphaDirs := [] })],
              deletePrompt := some ⟨["h", "x"], "x", .working, none⟩ }
            ["h", "x"] 7).1.currentPath = ["h"]
      ∧ (confirmDeleteSuccess
            { currentPath := ["h"], selectedIndex := 1, viewOffset := 0, elapsedStart := 0,
              cache := [(["h"],
                          { status := .scanned, path := ["h"],
                            alphaDirs := [["h", "x"], ["h", "y"]],
                            dirs := some [⟨9, ["h", "x"]⟩, ⟨3, ["h", "y"]⟩] }),
                         (["h", "x"],
                          { status := .scanned, path := ["h", "x"], alphaDirs := [] })],
              deletePrompt := some ⟨["h", "x"], "x", .working, none⟩ }
            ["h", "x"] 7).2 = ⟨["h"], true⟩
      ∧ (confirmDeleteSuccess
            { currentPath := ["h"], selectedIndex := 1, viewOffset := 0, elapsedStart := 0,
              cache := [(["h"],
                          { status := .scanned, path := ["h"],
                            alphaDirs := [["h", "x"], ["h", "y"]],
                            dirs := some [⟨9, ["h", "x"]⟩, ⟨3, ["h", "y"]⟩] }),
                         (["h", "x"],
                          { status := .scanned, path := ["h", "x"], alphaDirs := [] })],
              deletePrompt := some ⟨["h", "x"], "x", .working, none⟩ }
            ["h", "x"] 7).1.deletePrompt = none := by
  have h := confirmDelete_success_effects
    { currentPath := ["h"], selectedIndex := 1, viewOffset := 0, elapsedStart := 0,
      cache := [(["h"],
                  { status := .scanned, path := ["h"],
                    alphaDirs := [["h", "x"], ["h", "y"]],
                    dirs := some [⟨9, ["h", "x"]⟩, ⟨3, ["h", "y"]⟩] }),
                 (["h", "x"],
                  { status := .scanned, path := ["h", "x"], alphaDirs := [] })],
      deletePrompt := some ⟨["h", "x"], "x", .working, none⟩ }
    ["h", "x"] 7 (by decide)
  refine ⟨by decide, by decide, h.1, ?_, ?_, h.2.2.2.2⟩
  · exact (h.2.2.2.1 (by decide)).1
  · exact (h.2.2.2.1 (by decide)).2

/-! ## C6: the selected index is clamped to the navigable list -/

/-- Claim C6: whenever the navigable list's length changes, the clamp
effect (`src/src/ui/Navigator.tsx` lines 285-290) forces the selected
index into range: for a non-empty list of length L the clamped index
lies in `[0, L-1]` (in particular after any shrink), and for an empty
list it becomes 0. -/
theorem selected_index_clamped (entry : Option DirCacheEntry) (idx : Nat) :
    ((getNavigableList entry).length = 0 →
        clampSelectedIndex (getNavigableList entry).length idx = 0)
      ∧ ((getNavigableList entry).length ≠ 0 →
          clampSelectedIndex (getNavigableList entry).length idx
              ≤ (getNavigableList entry).length - 1
            ∧ clampSelectedIndex (getNavigableList entry).length idx
              < (getNavigableList entry).length) := by
  unfold clampSelectedIndex
  constructor
  · intro h
    simp [h]
  · intro h
    rw [if_neg h]
    omega

/-- A `scanned` entry whose navigable list is its two sized rows. -/
def c6entry : DirCacheEntry :=
  { status := .scanned, path := ["n"], alphaDirs := [["n", "z"]],
    dirs := some [⟨5, ["n", "a"]⟩, ⟨3, ["n", "b"]⟩] }

/-- Witness for C6 at a concrete input: a navigable list of length 2
(the sized rows win over `alphaDirs`) clamps a stale index 7 into
`[0, 1]`. -/
theorem selected_index_clamped_witness :
    ((getNavigableList (some c6entry)).length ≠ 0)
      ∧ clampSelectedIndex (getNavigableList (some c6entry)).length 7
          ≤ (getNavigableList (some c6entry)).length - 1
      ∧ clampSelectedIndex (getNavigableList (some c6entry)).length 7
          < (getNavigableList (some c6entry)).length :=
  ⟨by decide, ((selected_index_clamped (some c6entry) 7).2 (by decide)).1,
   ((selected_index_clamped (some c6entry) 7).2 (by decide)).2⟩

/-! ## C7: the viewport adjustment versus the spec's scroll rule -/

/-- Claim C7 counterexample: `adjustViewport` has a leading case absent
from the spec's scroll rule — when the whole list fits in the window
(`len <= viewSize`) it resets the offset to 0.  At list length 3,
selected index 2, current offset 1, window size 5, the code yields 0
while the spec's rule leaves the offset unchanged at 1, so the code
does not update the viewport "by exactly the spec's rule" for every
input. -/
theorem adjustViewport_deviates_from_spec_rule :
    adjustViewport 3 2 1 5 = 0 ∧ specScrollRule 2 1 5 = 1
      ∧ adjustViewport 3 2 1 5 ≠ specScrollRule 2 1 5 := by
  decide

/-- Claim C7 (amended): when the list is longer than the window,
`adjustViewport` computes exactly the spec's minimal-scroll rule; when
the list fits within the window it resets the offset to 0 instead. -/
theorem adjustViewport_follows_rule_when_overflowing
    (len selected currentOffset viewSize : Nat) :
    (len ≤ viewSize → adjustViewport len selected currentOffset viewSize = 0)
      ∧ (viewSize < len →
          adjustViewport len selected currentOffset viewSize
            = specScrollRule selected currentOffset viewSize) := by
  unfold adjustViewport specScrollRule
  constructor
  · intro h
    rw [if_pos h]
  · intro h
    rw [if_neg (by omega)]

/-- Witness for the amended C7 at concrete inputs: a fitting list
resets to 0; an overflowing list follows the spec rule (here scrolling
down to 9 - 3 + 1 = 7). -/
theorem adjustViewport_follows_rule_when_overflowing_witness :
    ((3 : Nat) ≤ 5 ∧ adjustViewport 3 2 1 5 = 0)
      ∧ ((3 : Nat) < 10 ∧ adjustViewport 10 9 0 3 = specScrollRule 9 0 3) :=
  ⟨⟨by decide, (adjustViewport_follows_rule_when_overflowing 3 2 1 5).1 (by decide)⟩,
   ⟨by decide, (adjustViewport_follows_rule_when_overflowing 10 9 0 3).2 (by decide)⟩⟩

/-! ## C8: persist-then-reload round trip -/

/-- Reloading the store turns each persisted record into a `scanned`
cache entry with the persisted lists restored and `alphaDirs` empty. -/
theorem aget_loadCacheFromDisk (data : PersistMap) (p : DirPath) :
    aget (loadCacheFromDisk data) p
      = (aget data p).map (fun v =>
          { status := .scanned, path := p, alphaDirs := [],
            dirs := some v.dirs, files := some v.files,
            lastScan := some v.lastScan, msg := none }) := by
  induction data with
  | nil => simp [loadCacheFromDisk, aget]
  | cons hd tl ih =>
    by_cases h : p = hd.1
    · simp [loadCacheFromDisk, aget, h]
    · simp only [loadCacheFromDisk, List.map_cons] at ih ⊢
      simp [aget, h, ih]

/-- Claim C8: saving path `p`'s scan results to the store and reloading
the store yields an entry for `p` with the identical `dirs` (same sizes
in the same order), status `scanned`, and empty `alphaDirs` (the spec's
`childPaths`, refilled lazily on next visit); the save preserves every
other path's stored record. -/
theorem persist_reload_round_trip (data : PersistMap) (p : DirPath) (e : PersistEntry) :
    aget (loadCacheFromDisk (saveCacheToDisk data p e)) p
        = some { status := .scanned, path := p, alphaDirs := [],
                 dirs := some e.dirs, files := some e.files,
                 lastScan := some e.lastScan, msg := none }
      ∧ ∀ q, q ≠ p → aget (saveCacheToDisk data p e) q = aget data q := by
  constructor
  · rw [aget_loadCacheFromDisk]
    rw [show aget (saveCacheToDisk data p e) p = some e from aget_aset_self data p e]
    rfl
  · intro q hq
    exact aget_aset_ne data p q e hq

/-- Witness for C8 at a concrete input: saving results for `["a", "b"]`
into a store that already holds `["other"]` and reloading restores the
identical ordered sizes for `["a", "b"]` while `["other"]` is kept. -/
theorem persist_reload_round_trip_witness :
    aget (loadCacheFromDisk (saveCacheToDisk [(["other"], ⟨1, [], []⟩)] ["a", "b"]
            ⟨5, [⟨9, ["a", "b", "c"]⟩, ⟨2, ["a", "b", "d"]⟩], []⟩)) ["a", "b"]
        = some { status := .scanned, path := ["a", "b"], alphaDirs := [],
                 dirs := some [⟨9, ["a", "b", "c"]⟩, ⟨2, ["a", "b", "d"]⟩],
                 files := some [], lastScan := some 5, msg := none }
      ∧ ((["other"] : DirPath) ≠ ["a", "b"])
      ∧ aget (saveCacheToDisk [(["other"], ⟨1, [], []⟩)] ["a", "b"]
            ⟨5, [⟨9, ["a", "b", "c"]⟩, ⟨2, ["a", "b", "d"]⟩], []⟩) ["other"]
          = aget [(["other"], (⟨1, [], []⟩ : PersistEntry))] ["other"] :=
  ⟨(persist_reload_round_trip [(["other"], ⟨1, [], []⟩)] ["a", "b"]
      ⟨5, [⟨9, ["a", "b", "c"]⟩, ⟨2, ["a", "b", "d"]⟩], []⟩).1,
   by decide,
   (persist_reload_round_trip [(["other"], ⟨1, [], []⟩)] ["a", "b"]
      ⟨5, [⟨9, ["a", "b", "c"]⟩, ⟨2, ["a", "b", "d"]⟩], []⟩).2 ["other"] (by decide)⟩

/-! ## C9: startup without a TTY -/

/-- Claim C9 counterexample: started in interactive mode (no one-shot
subcommand) without an interactive terminal on stdin, the process does
not fail at startup: the entry point (`src/src/index.tsx` lines 7-12)
routes to the non-interactive one-shot UI — the code comments this as
"fallback to non-interactive UI when no TTY" — and that outcome is a
rendered UI, not the spec's startup-error non-zero exit. -/
theorem nonTty_interactive_renders_app :
    routeStartup none false = .renderApp
      ∧ StartupAction.renderApp ≠ StartupAction.exitWithError := by
  decide

/-- Claim C9 (amended): an interactive-mode invocation (no one-shot
subcommand) without a TTY falls back to the non-interactive report UI,
and no invocation whatsoever produces a startup error from the
routing. -/
theorem startup_without_tty_falls_back
    (first : Option String) (tty : Bool)
    (hlegacy : isLegacyInvocation first = false) :
    routeStartup first false = .renderApp
      ∧ routeStartup first tty ≠ .exitWithError := by
  constructor
  · simp [routeStartup, hlegacy]
  · simp only [routeStartup]
    split <;> decide

/-- Witness for the amended C9 at a concrete input: no subcommand, no
TTY. -/
theorem startup_without_tty_falls_back_witness :
    isLegacyInvocation none = false
      ∧ routeStartup none false = .renderApp
      ∧ routeStartup none false ≠ .exitWithError :=
  ⟨by decide, (startup_without_tty_falls_back none false (by decide)).1,
   (startup_without_tty_falls_back none false (by decide)).2⟩

end StorageCleanup
